import Mathlib

/-!
Verification of the retrieval core of the Odoo documentation RAG bot.

Shallow embedding of `src/vector_database.py` (class `VectorDatabase`: FAISS
inner-product index over L2-normalized embeddings) and `src/rag_system.py`
(class `OdooRAGSystem`: retrieval orchestration, fallback policy, source
deduplication and formatting).

Modelling conventions:
* Python floats / numpy float32 values are modelled as exact rationals `ℚ`.
  Cosine similarity of vectors `q`, `v` is `dot q v / √(sqNorm q · sqNorm v)`,
  which is irrational in general; we carry it in the square-root-free,
  strictly-monotone encoding `scoreOf` below (the signed square of the cosine),
  which preserves the ordering of similarities and their being zero — the only
  two aspects of the numeric value any statement here depends on.
* External effects (the Gemini embedding endpoint, `generate_content`, PIL
  image decoding) are oracles passed in as a record of functions; Python
  exceptions are `Except` values.
* Python dictionaries returned by `ask` are records; keys that only some
  return sites include (`retrieved_docs_count`, `image_analysis`) are `Option`
  fields, `none` meaning the key is absent.
-/

deriving instance DecidableEq for Except

namespace Odoo18Bot

/-- Metadata dictionary of one document chunk as stored in
`VectorDatabase.documents` (the fields `ask` and `get_stats` read). -/
structure Doc where
  chunk_id : String
  url : String
  path_slug : String
  filename : String
  content : String
deriving DecidableEq

/-- Dot product of two rational vectors (`np.dot` / FAISS inner product on the
common length of the two vectors). -/
def dot (v w : List ℚ) : ℚ := (List.zipWith (fun a b => a * b) v w).sum

/-- Squared L2 norm: the sum `nr` that faiss's `fvec_renorm_L2` computes per row. -/
def sqNorm (v : List ℚ) : ℚ := (v.map fun x => x * x).sum

/-- One row of `faiss.normalize_L2`: a row with zero norm is left untouched
(the `nr > 0` guard in faiss's `fvec_renorm_L2`), otherwise every entry is
divided by the L2 norm.  The norm is a square root, irrational over `ℚ`, so the
scaled row is represented exactly by the pair `(row, squared norm)`, denoting
`row / √(squared norm)`; the untouched zero row is `(row, 1)`, denoting itself.
No division is performed on the zero row, mirroring the source's guard. -/
def normalizeL2 (v : List ℚ) : List ℚ × ℚ :=
  if sqNorm v = 0 then (v, 1) else (v, sqNorm v)

/-- Inner product of two represented rows `(w₁, s₁)`, `(w₂, s₂)` (each denoting
`wᵢ / √sᵢ`): the pair `(dot w₁ w₂, s₁ * s₂)` denoting `dot w₁ w₂ / √(s₁ * s₂)`. -/
def pairDot : List ℚ × ℚ → List ℚ × ℚ → ℚ × ℚ
  | (w₁, s₁), (w₂, s₂) => (dot w₁ w₂, s₁ * s₂)

/-- Square-root-free encoding of the value `a / √b` (with `b > 0` throughout
the pipeline: it is a product of the `1`s and positive squared norms produced
by `normalizeL2`): the signed square `sign(a) · a² / b`.  As `x ↦ sign(x)·x²`
is strictly increasing, two similarities compare under `≤` exactly as their
encodings do, and the encoding is `0` exactly when the similarity is `0`. -/
def scoreOf : ℚ × ℚ → ℚ
  | (a, b) => if 0 ≤ a then a ^ 2 / b else -(a ^ 2 / b)

/-- The exact value `-FLT_MAX = -(2¹²⁸ - 2¹⁰⁴)`, the neutral element faiss pads
unfilled result slots with when `k` exceeds the number of indexed vectors
(`CMax<float,…>::neutral()`).  Encoded similarities lie in `[-1, 1]`, so this
sentinel sorts strictly below every genuine similarity, as in float arithmetic
(`negFltMax_eq` below states the closed form). -/
def negFltMax : ℚ := -340282346638528859811704183484516925440

/-- Insert a `(similarity, label)` hit into a list sorted by similarity
descending, ties by ascending label (faiss's deterministic `cmp2` tie-breaking
on ids). -/
def insertHit (p : ℚ × Int) : List (ℚ × Int) → List (ℚ × Int)
  | [] => [p]
  | q :: qs =>
    if p.1 > q.1 ∨ (p.1 = q.1 ∧ p.2 < q.2) then p :: q :: qs else q :: insertHit p qs

/-- Sort hits by similarity descending, ties by ascending label. -/
def sortHits (l : List (ℚ × Int)) : List (ℚ × Int) := l.foldr insertHit []

/-- Model of `IndexFlatIP.search` for one query row: score every stored row by
inner product with the query, order by score descending (ties by ascending id),
return the first `k` slots; when `k` exceeds the number of stored vectors the
remaining slots are padded with distance `-FLT_MAX` and label `-1`, as faiss
does. -/
def faissTopK (xb : List (List ℚ × ℚ)) (xq : List ℚ × ℚ) (k : ℕ) : List (ℚ × Int) :=
  (sortHits ((xb.enum).map fun p => (scoreOf (pairDot xq p.2), (p.1 : Int)))).take k
    ++ List.replicate (k - xb.length) (negFltMax, -1)

/-- A result dictionary of `VectorDatabase.search`: the copied chunk dictionary
with `similarity` and `rank` added. -/
structure SearchResult where
  doc : Doc
  similarity : ℚ
  rank : ℕ
deriving DecidableEq

/-- The exceptions `VectorDatabase.search` can raise: the explicit
`ValueError` when no index is built; the `assert d == self.d` of the faiss
Python wrapper on a query of the wrong width; the `FAISS_THROW_IF_NOT(k > 0)`
of `IndexFlat::search` when `top_k` is not positive. -/
inductive SearchErr where
  | indexNotBuilt
  | dimensionMismatch
  | kNotPositive
deriving DecidableEq

/-- `str(e)` of each modelled exception, as `_ask_with_image` interpolates it. -/
def SearchErr.msg : SearchErr → String
  | .indexNotBuilt => "Index not built. Call build_index() first."
  | .dimensionMismatch => ""
  | .kNotPositive => "Error: 'k > 0' failed"

/-- State of a `VectorDatabase` instance: `documents`, `embeddings` and
`dimension` as set by `load_embeddings`, and `index` (`none` until
`build_index` runs; afterwards the normalized rows faiss holds). -/
structure VectorDatabase where
  documents : List Doc
  embeddings : List (List ℚ)
  dimension : ℕ
  index : Option (List (List ℚ × ℚ))
deriving DecidableEq

/-- `VectorDatabase.build_index`: raises `ValueError` when no embeddings are
loaded; otherwise normalizes every stored row in place (`faiss.normalize_L2`)
and adds them to a fresh `IndexFlatIP`.  The in-place update of
`self.embeddings` and the index contents coincide; the model records the
normalized rows in `index`. -/
def VectorDatabase.build_index (db : VectorDatabase) : Except String VectorDatabase :=
  if db.embeddings.length = 0 then
    Except.error "No embeddings loaded. Call load_embeddings() first."
  else
    Except.ok { db with index := some (db.embeddings.map normalizeL2) }

/-- Python list indexing: a negative index counts from the end of the list;
an index out of range on either side raises `IndexError` (here `none`). -/
def pyGet (l : List Doc) (i : Int) : Option Doc :=
  if 0 ≤ i then l.get? i.toNat
  else if 0 ≤ (l.length : Int) + i then l.get? ((l.length : Int) + i).toNat
  else none

/-- `VectorDatabase.search`: raises when the index is missing, the query width
differs from the index dimension, or `top_k = 0`; otherwise normalizes the
query row, runs the faiss top-`top_k` search, and keeps every slot whose label
`idx` satisfies the source's guard `idx < len(self.documents)` — note that the
padding label `-1` satisfies it and `self.documents[-1]` is Python's last
element — copying the chunk and adding `similarity` and `rank = i + 1` (`i`
enumerating all slots). -/
def VectorDatabase.search (db : VectorDatabase) (query_embedding : List ℚ)
    (top_k : ℕ) : Except SearchErr (List SearchResult) :=
  match db.index with
  | none => Except.error SearchErr.indexNotBuilt
  | some xb =>
    if query_embedding.length ≠ db.dimension then
      Except.error SearchErr.dimensionMismatch
    else if top_k = 0 then
      Except.error SearchErr.kNotPositive
    else
      Except.ok <| ((faissTopK xb (normalizeL2 query_embedding) top_k).enum).filterMap fun p =>
        if p.2.2 < (db.documents.length : Int) then
          (pyGet db.documents p.2.2).map fun doc =>
            { doc := doc, similarity := p.2.1, rank := p.1 + 1 }
        else none

/-- First-occurrence deduplication, the iteration order of a Python dict keyed
by first insertion (`chunks_per_doc` in `get_stats`). -/
def firstDedup : List String → List String
  | [] => []
  | a :: l => a :: (firstDedup l).filter (fun b => b ≠ a)

/-- The statistics dictionary `get_stats` returns when documents are loaded. -/
structure DbStats where
  total_chunks : ℕ
  unique_documents : ℕ
  embedding_dimension : ℕ
  average_chunks_per_doc : ℚ
  max_chunks_per_doc : ℕ
  sample_paths : List String
deriving DecidableEq

/-- Return value of `get_stats`: either the `{"error": …}` dictionary or the
statistics dictionary. -/
inductive StatsResult where
  | error (msg : String)
  | ok (s : DbStats)
deriving DecidableEq

/-- `VectorDatabase.get_stats`: with no documents, the `{"error": "No documents
loaded"}` dictionary; otherwise pure aggregation over the chunk list grouped by
`path_slug`.  `unique_paths` is a Python `set`, whose iteration order is
unspecified; the model uses first-occurrence order for the `sample_paths`
listing (no claim depends on that order), and `np.mean` is exact rational
division here. -/
def VectorDatabase.get_stats (db : VectorDatabase) : StatsResult :=
  if db.documents = [] then StatsResult.error "No documents loaded"
  else
    let paths := db.documents.map Doc.path_slug
    let uniquePaths := firstDedup paths
    let counts := uniquePaths.map fun p => paths.count p
    StatsResult.ok
      { total_chunks := db.documents.length
        unique_documents := uniquePaths.length
        embedding_dimension := db.dimension
        average_chunks_per_doc := ((counts.sum : ℚ) / (counts.length : ℚ))
        max_chunks_per_doc := counts.foldr max 0
        sample_paths := uniquePaths.take 5 }

/-- Lowercasing as `str.lower` (agreeing with Python on the ASCII letters all
marker phrases consist of). -/
def strLower (s : String) : String := String.mk (s.toList.map Char.toLower)

/-- Python's `needle in haystack` on strings: `n` occurs as a contiguous
substring of `h`. -/
def strContains (h n : String) : Bool :=
  (List.range (h.toList.length + 1)).any fun i => n.toList.isPrefixOf (h.toList.drop i)

/-- Python `str.replace(".html", "")`: remove every (leftmost, non-overlapping)
occurrence of `".html"`, wherever it stands. -/
def removeHtml : List Char → List Char
  | [] => []
  | c :: cs =>
    if ".html".toList.isPrefixOf (c :: cs) then removeHtml ((c :: cs).drop 5)
    else c :: removeHtml cs
termination_by l => l.length
decreasing_by
  · simp only [List.length_drop, List.length_cons]; omega
  · simp

/-- `doc['filename'].replace('.html', '')`, the title of a formatted source. -/
def pyStripHtml (s : String) : String := String.mk (removeHtml s.toList)

/-- The external capabilities `OdooRAGSystem` calls out to, as pure oracles:
`embed text task_type` is `GeminiEmbeddingSystem.generate_embedding` (its
`None` on failure of both attempts is `none`); `gen prompt` is
`generator.generate_content(prompt).text` on a text prompt, an `Except.error`
carrying `str(e)` when the call raises; `genVision prompt` likewise for
`generate_content([prompt, image])`; `decodeImage bytes` is
`PIL.Image.open(io.BytesIO(bytes))`. -/
structure Oracles where
  embed : String → String → Option (List ℚ)
  gen : String → Except String String
  genVision : String → Except String String
  decodeImage : List ℕ → Except String Unit

namespace OdooRAGSystem

/-- `OdooRAGSystem.retrieve_relevant_docs`: embed the query with task type
`RETRIEVAL_QUERY`; a falsy embedding (`None` or `[]`) yields `[]` without
touching the index; otherwise the index search runs (and its exceptions
propagate). -/
def retrieve_relevant_docs (o : Oracles) (db : VectorDatabase) (query : String)
    (top_k : ℕ) : Except SearchErr (List SearchResult) :=
  match o.embed query "RETRIEVAL_QUERY" with
  | none => Except.ok []
  | some qe =>
    if qe = [] then Except.ok []
    else db.search qe top_k

/-- The context block of the grounded prompt: one labelled section per
retrieved chunk, joined by newlines. -/
def contextOf (retrieved_docs : List SearchResult) : String :=
  String.intercalate "\n" <| (retrieved_docs.enum).map fun p =>
    "Source " ++ toString (p.1 + 1) ++ " (" ++ p.2.doc.path_slug ++ "):\n"
      ++ p.2.doc.content ++ "\n"

/-- The grounded-synthesis prompt of `generate_answer` (the source's f-string
with `query` and the context spliced in). -/
def grounded_prompt (query : String) (retrieved_docs : List SearchResult) : String :=
  "You are an Odoo 18.0 certification expert. Provide concise, confident answers for this certification question(s).

Question(s): " ++ query ++ "

Context from Odoo 18.0 Documentation:
" ++ contextOf retrieved_docs ++ "

Instructions:
1. Give the most accurate answer(s) based on the context
2. Be concise and direct - this is for a timed certification exam
3. If multiple questions are asked, format each answer on a separate line like:
   1. [Answer to question 1]
   2. [Answer to question 2]
   3. [Answer to question 3]
4. For multiple choice questions, clearly state the correct answer (e.g., \"A\" or \"The correct answer is A\")
5. Keep explanations minimal - focus on the correct answer only
6. If you cannot find an answer in the documentation context, start that specific answer with \"⚠️ General knowledge: \"
7. IMPORTANT: Provide ONLY plain text - no HTML tags, markup, or code snippets

Answer(s):"

/-- The general-knowledge prompt of `_generate_fallback_answer`. -/
def fallback_prompt (query : String) : String :=
  "You are an experienced Odoo consultant with deep knowledge of Odoo 18.0.
The user asked question(s) that couldn't be answered from the official documentation.
Provide the best possible answers based on your general Odoo knowledge and common practices.

Question(s): " ++ query ++ "

Instructions:
1. Be concise and direct - this is for a timed certification exam
2. If multiple questions are asked, format each answer on a separate line like:
   1. ⚠️ General knowledge: [Answer to question 1]
   2. ⚠️ General knowledge: [Answer to question 2]
   3. ⚠️ General knowledge: [Answer to question 3]
3. For multiple choice questions, clearly state the correct answer (e.g., \"A\" or \"The correct answer is A\")
4. Keep explanations minimal - focus on the correct answer only
5. Start each answer with \"⚠️ General knowledge: \" to indicate it's not from official docs

Provide helpful, practical answers based on:
- Common Odoo workflows and best practices
- Typical Odoo configurations
- Standard business processes in Odoo
- Logical deductions about how Odoo likely works

Answer(s):"

/-- The vision prompt of `_ask_with_image`. -/
def vision_prompt (query : String) : String :=
  "You are an Odoo 18.0 certification expert. Provide concise, confident answers for this certification question(s).

Question(s): " ++ query ++ "

Instructions:
1. Give the most accurate answer(s) based on the image and question(s)
2. Be concise and direct - this is for a timed certification exam
3. If multiple questions are asked, format each answer on a separate line like:
   1. [Answer to question 1]
   2. [Answer to question 2]
   3. [Answer to question 3]
4. For multiple choice questions, clearly state the correct answer (e.g., \"A\" or \"The correct answer is A\")
5. Keep explanations minimal - focus on the correct answer only
6. IMPORTANT: Provide ONLY plain text - no HTML tags, markup, or code snippets

Answer(s):"

/-- The fixed marker phrases of `_is_unknown_response`. -/
def unknown_indicators : List String :=
  ["i don't know",
   "i couldn't find",
   "the provided documentation does not contain",
   "not available in the documentation",
   "no information",
   "cannot find",
   "unclear from the documentation"]

/-- `OdooRAGSystem._is_unknown_response`: some marker phrase occurs as a
substring of the lowercased answer. -/
def _is_unknown_response (answer : String) : Bool :=
  unknown_indicators.any fun indicator => strContains (strLower answer) indicator

/-- `OdooRAGSystem._generate_fallback_answer`: the general-knowledge synthesis
call; on any exception from it, the fixed templated apology interpolating the
query. -/
def _generate_fallback_answer (o : Oracles) (query : String) : String :=
  match o.gen (fallback_prompt query) with
  | Except.ok t => t
  | Except.error _ =>
    "⚠️ Based on general knowledge: I can provide an educated guess about '"
      ++ query
      ++ "', but I'd recommend checking the latest Odoo documentation or consulting with an Odoo expert for the most accurate information."

/-- `OdooRAGSystem.generate_answer`: the fixed not-found sentence when nothing
was retrieved; otherwise one grounded synthesis call, whose answer is replaced
by `_generate_fallback_answer` when `_is_unknown_response` flags it; an
exception from the synthesis call yields the `"Error generating response: …"`
string. -/
def generate_answer (o : Oracles) (query : String)
    (retrieved_docs : List SearchResult) : String :=
  if retrieved_docs = [] then
    "I couldn't find relevant information in the Odoo documentation to answer your question."
  else
    match o.gen (grounded_prompt query retrieved_docs) with
    | Except.ok answer =>
      if _is_unknown_response answer then _generate_fallback_answer o query
      else answer
    | Except.error e => "Error generating response: " ++ e

/-- One entry of the formatted `sources` list. -/
structure SourceEntry where
  title : String
  path : String
  url : String
  similarity : ℚ
  preview : String
deriving DecidableEq

/-- The source dictionary built for one kept chunk (the block the source
repeats verbatim in `ask` and `_ask_with_image`). -/
def mkSourceEntry (d : SearchResult) : SourceEntry :=
  { title := pyStripHtml d.doc.filename
    path := d.doc.path_slug
    url := d.doc.url
    similarity := d.similarity
    preview :=
      if 200 < d.doc.content.length then d.doc.content.take 200 ++ "..."
      else d.doc.content }

/-- The deduplication loop over retrieved chunks: `seen` is the `seen_urls`
set; a chunk whose `url` was already seen is dropped, otherwise its formatted
entry is appended and its `url` recorded. -/
def dedupSources : List SearchResult → List String → List SourceEntry
  | [], _ => []
  | d :: ds, seen =>
    if d.doc.url ∈ seen then dedupSources ds seen
    else mkSourceEntry d :: dedupSources ds (d.doc.url :: seen)

/-- The result dictionary of `ask` / `_ask_with_image`.  `retrieved_docs_count`
is present only on the grounded text path, `image_analysis` only on the vision
path (`none` = key absent). -/
structure RagAnswer where
  query : String
  answer : String
  sources : List SourceEntry
  retrieved_docs_count : Option ℕ
  from_docs : Bool
  image_analysis : Option Bool
deriving DecidableEq

/-- Python truthiness of the `image_data: bytes = None` argument: `None` and
the empty bytes are falsy. -/
def pyTruthyBytes : Option (List ℕ) → Bool
  | none => false
  | some b => b ≠ []

/-- `OdooRAGSystem._ask_with_image`: inside one `try`, decode the image, run a
best-effort retrieval with `top_k=3`, call the vision synthesis once, and
format deduplicated sources (an empty retrieval leaves `sources = []`); the
answer text is used as returned, `from_docs` is `len(sources) > 0` and
`image_analysis` is `True`.  Any exception in the block yields the
`"❌ Error analyzing image: …"` record with empty sources. -/
def _ask_with_image (o : Oracles) (db : VectorDatabase) (query : String)
    (image_data : List ℕ) : RagAnswer :=
  let failed : String → RagAnswer := fun e =>
    { query := query
      answer := "❌ Error analyzing image: " ++ e
      sources := []
      retrieved_docs_count := none
      from_docs := false
      image_analysis := some true }
  match o.decodeImage image_data with
  | Except.error e => failed e
  | Except.ok _ =>
    match retrieve_relevant_docs o db query 3 with
    | Except.error e => failed e.msg
    | Except.ok retrieved_docs =>
      match o.genVision (vision_prompt query) with
      | Except.error e => failed e
      | Except.ok answer =>
        let sources :=
          if retrieved_docs = [] then [] else dedupSources retrieved_docs []
        { query := query
          answer := answer
          sources := sources
          retrieved_docs_count := none
          from_docs := decide (0 < sources.length)
          image_analysis := some true }

/-- `OdooRAGSystem.ask` (source default `top_k = 3`): a truthy `image_data`
routes to `_ask_with_image`; an empty retrieval routes to the fallback record
(`from_docs = False`, empty sources); otherwise one grounded `generate_answer`,
`from_docs = not _is_unknown_response(answer)` re-tested on the final answer,
and the URL-deduplicated source list. -/
def ask (o : Oracles) (db : VectorDatabase) (query : String) (top_k : ℕ)
    (image_data : Option (List ℕ)) : Except SearchErr RagAnswer :=
  if pyTruthyBytes image_data then
    Except.ok (_ask_with_image o db query (image_data.getD []))
  else
    match retrieve_relevant_docs o db query top_k with
    | Except.error e => Except.error e
    | Except.ok retrieved_docs =>
      if retrieved_docs = [] then
        Except.ok
          { query := query
            answer := _generate_fallback_answer o query
            sources := []
            retrieved_docs_count := none
            from_docs := false
            image_analysis := none }
      else
        let answer := generate_answer o query retrieved_docs
        Except.ok
          { query := query
            answer := answer
            sources := dedupSources retrieved_docs []
            retrieved_docs_count := some retrieved_docs.length
            from_docs := ! _is_unknown_response answer
            image_analysis := none }

end OdooRAGSystem

/-- The title transformation as the specification words it — "filename with
any `.html` suffix stripped" — written from the spec's sentence, to be
compared against the source's `str.replace('.html', '')` (which removes every
occurrence, not only a trailing one). -/
def specTitle (s : String) : String :=
  if ".html".toList.isSuffixOf s.toList then
    String.mk (s.toList.take (s.toList.length - 5))
  else s

section Fixtures

open OdooRAGSystem

/-- Fixture chunk: a one-chunk corpus. -/
def docC1 : Doc :=
  { chunk_id := "c1"
    url := "https://docs.example/sales.html"
    path_slug := "sales/quotations"
    filename := "sales.html"
    content := "alpha" }

/-- Fixture database after `load_embeddings` (one 1-dimensional embedding). -/
def dbC1loaded : VectorDatabase :=
  { documents := [docC1], embeddings := [[1]], dimension := 1, index := none }

/-- Fixture database after `build_index` on `dbC1loaded`. -/
def dbC1 : VectorDatabase :=
  { dbC1loaded with index := some [([1], 1)] }

/-- Fixture oracle whose grounded synthesis declares ignorance and whose
general-knowledge synthesis answers without any marker phrase (the two prompts
are told apart by their distinct opening words). -/
def oUnknown : Oracles :=
  { embed := fun _ _ => some [1]
    gen := fun p =>
      if "You are an experienced".toList.isPrefixOf p.toList then
        Except.ok "⚠️ General knowledge: B"
      else Except.ok "I don't know"
    genVision := fun _ => Except.ok ""
    decodeImage := fun _ => Except.ok () }

/-- Fixture chunk whose filename contains `.html` other than as a suffix. -/
def docC7 : Doc :=
  { chunk_id := "c7"
    url := "https://docs.example/intro"
    path_slug := "general/intro"
    filename := "intro.html.txt"
    content := "intro text" }

/-- Fixture database holding only `docC7`, index built. -/
def dbC7 : VectorDatabase :=
  { documents := [docC7], embeddings := [[1]], dimension := 1, index := some [([1], 1)] }

/-- Fixture oracle answering plainly, with no marker phrase. -/
def oPlain : Oracles :=
  { embed := fun _ _ => some [1]
    gen := fun _ => Except.ok "The answer is A."
    genVision := fun _ => Except.ok "I don't know"
    decodeImage := fun _ => Except.ok () }

/-- Fixture oracle whose embedding capability fails (both attempts, so
`generate_embedding` returns `None`) and whose synthesis raises. -/
def oFail : Oracles :=
  { embed := fun _ _ => none
    gen := fun _ => Except.error "boom"
    genVision := fun _ => Except.error "boom"
    decodeImage := fun _ => Except.error "cannot identify image file" }

/-- Fixture two-chunk corpus for zero-query searches. -/
def docC6a : Doc :=
  { chunk_id := "c6a"
    url := "https://docs.example/a"
    path_slug := "a"
    filename := "a.html"
    content := "first" }

/-- Second fixture chunk for zero-query searches. -/
def docC6b : Doc :=
  { chunk_id := "c6b"
    url := "https://docs.example/b"
    path_slug := "b"
    filename := "b.html"
    content := "second" }

/-- Fixture database with two orthogonal 2-dimensional embeddings, built. -/
def dbC6 : VectorDatabase :=
  { documents := [docC6a, docC6b]
    embeddings := [[1, 0], [0, 1]]
    dimension := 2
    index := some [([1, 0], 1), ([0, 1], 1)] }

/-- Fixture three-chunk corpus over two distinct `path_slug`s for `get_stats`. -/
def dbC10 : VectorDatabase :=
  { documents :=
      [{ docC6a with path_slug := "p1" },
       { docC6b with path_slug := "p2" },
       { docC1 with path_slug := "p1" }]
    embeddings := [[1], [1], [1]]
    dimension := 1
    index := none }

/-- The record `ask` returns on `oUnknown` over `dbC1` with `top_k = 1`. -/
def ansC2 : RagAnswer :=
  { query := "Q"
    answer := "⚠️ General knowledge: B"
    sources := [{ title := "sales", path := "sales/quotations",
                  url := "https://docs.example/sales.html", similarity := 1,
                  preview := "alpha" }]
    retrieved_docs_count := some 1
    from_docs := true
    image_analysis := none }

/-- The record `ask` returns on `oPlain` over `dbC7` with `top_k = 1`. -/
def ansC7 : RagAnswer :=
  { query := "q7"
    answer := "The answer is A."
    sources := [{ title := "intro.txt", path := "general/intro",
                  url := "https://docs.example/intro", similarity := 1,
                  preview := "intro text" }]
    retrieved_docs_count := some 1
    from_docs := true
    image_analysis := none }

/-- An empty database, nothing loaded. -/
def dbEmpty : VectorDatabase :=
  { documents := [], embeddings := [], dimension := 0, index := none }

end Fixtures

open OdooRAGSystem

/-- The sentinel value in closed form: `-FLT_MAX = -(2^128 - 2^104)`. -/
theorem negFltMax_eq : negFltMax = -(2 ^ 128 - 2 ^ 104) := by
  norm_num [negFltMax]

/-- A zero vector has zero dot product with every vector. -/
theorem dot_replicate_zero (n : ℕ) (w : List ℚ) : dot (List.replicate n 0) w = 0 := by
  induction n generalizing w with
  | zero => simp [dot]
  | succ m ih =>
    cases w with
    | nil => simp [dot]
    | cons b t => simpa [dot, List.replicate_succ] using ih t

/-- A zero inner product has score zero, whatever the squared denominator. -/
theorem scoreOf_zero (b : ℚ) : scoreOf (0, b) = 0 := by
  norm_num [scoreOf]

/-- Unfolding of `pairDot` in terms of projections. -/
theorem pairDot_eq (a b : List ℚ × ℚ) : pairDot a b = (dot a.1 b.1, a.2 * b.2) := by
  rcases a with ⟨w1, s1⟩
  rcases b with ⟨w2, s2⟩
  rfl

/-- Membership in `insertHit` is membership in the inserted element or the list. -/
theorem mem_insertHit {a p : ℚ × Int} {l : List (ℚ × Int)} :
    a ∈ insertHit p l ↔ a = p ∨ a ∈ l := by
  induction l with
  | nil => simp [insertHit]
  | cons q qs ih =>
    simp only [insertHit]
    split
    · simp [List.mem_cons]
    · simp [List.mem_cons, ih]
      tauto

/-- `sortHits` permutes its input: membership is unchanged. -/
theorem mem_sortHits {a : ℚ × Int} {l : List (ℚ × Int)} : a ∈ sortHits l ↔ a ∈ l := by
  induction l with
  | nil => simp [sortHits]
  | cons x xs ih =>
    show a ∈ insertHit x (sortHits xs) ↔ _
    rw [mem_insertHit, ih, List.mem_cons]

/-- `insertHit` grows the list by one element. -/
theorem length_insertHit (p : ℚ × Int) (l : List (ℚ × Int)) :
    (insertHit p l).length = l.length + 1 := by
  induction l with
  | nil => rfl
  | cons q qs ih =>
    simp only [insertHit]
    split <;> simp [ih]

/-- `sortHits` preserves length. -/
theorem length_sortHits (l : List (ℚ × Int)) : (sortHits l).length = l.length := by
  induction l with
  | nil => rfl
  | cons x xs ih =>
    show (insertHit x (sortHits xs)).length = _
    simp [length_insertHit, ih]

/-- The value of an `enumFrom` entry is a member of the underlying list. -/
theorem snd_mem_of_mem_enumFrom {α : Type} {p : ℕ × α} :
    ∀ {n : ℕ} {l : List α}, p ∈ List.enumFrom n l → p.2 ∈ l := by
  intro n l
  induction l generalizing n with
  | nil => simp [List.enumFrom]
  | cons a t ih =>
    intro h
    rcases List.mem_cons.1 h with rfl | h
    · exact List.mem_cons_self _ _
    · exact List.mem_cons_of_mem _ (ih h)

/-- The value of an `enum` entry is a member of the underlying list. -/
theorem snd_mem_of_mem_enum {α : Type} {p : ℕ × α} {l : List α}
    (h : p ∈ l.enum) : p.2 ∈ l :=
  snd_mem_of_mem_enumFrom h

/-- URLs emitted by the deduplication loop are distinct and avoid `seen`. -/
theorem dedupSources_urls_nodup :
    ∀ (ds : List SearchResult) (seen : List String),
      ((dedupSources ds seen).map SourceEntry.url).Nodup ∧
      ∀ u ∈ (dedupSources ds seen).map SourceEntry.url, u ∉ seen := by
  intro ds
  induction ds with
  | nil => intro seen; simp [dedupSources]
  | cons d t ih =>
    intro seen
    simp only [dedupSources]
    split
    · exact ih seen
    · rename_i hseen
      have h2 := ih (d.doc.url :: seen)
      refine ⟨?_, ?_⟩
      · simp only [List.map_cons, List.nodup_cons]
        exact ⟨fun hmem => (h2.2 _ hmem) (List.mem_cons_self _ _), h2.1⟩
      · intro u hu
        rcases List.mem_cons.1 hu with rfl | hu
        · simpa [mkSourceEntry] using hseen
        · exact fun hin => (h2.2 u hu) (List.mem_cons_of_mem _ hin)

/-- Every entry the deduplication loop emits is the formatted version of one of
the retrieved chunks. -/
theorem mem_dedupSources :
    ∀ (ds : List SearchResult) (seen : List String) (s : SourceEntry),
      s ∈ dedupSources ds seen → ∃ d ∈ ds, s = mkSourceEntry d := by
  intro ds
  induction ds with
  | nil => intro seen s h; simp [dedupSources] at h
  | cons d t ih =>
    intro seen s h
    simp only [dedupSources] at h
    split at h
    · obtain ⟨d', hd', he⟩ := ih _ _ h
      exact ⟨d', List.mem_cons_of_mem _ hd', he⟩
    · rcases List.mem_cons.1 h with rfl | h
      · exact ⟨d, List.mem_cons_self _ _, rfl⟩
      · obtain ⟨d', hd', he⟩ := ih _ _ h
        exact ⟨d', List.mem_cons_of_mem _ hd', he⟩

/-- `firstDedup` keeps exactly the members of its input. -/
theorem mem_firstDedup {l : List String} {a : String} : a ∈ firstDedup l ↔ a ∈ l := by
  induction l with
  | nil => simp [firstDedup]
  | cons b t ih =>
    simp only [firstDedup, List.mem_cons, List.mem_filter, decide_eq_true_eq, ne_eq]
    constructor
    · rintro (rfl | ⟨h, _⟩)
      · exact Or.inl rfl
      · exact Or.inr (ih.1 h)
    · rintro (rfl | h)
      · exact Or.inl rfl
      · by_cases hab : a = b
        · exact Or.inl hab
        · exact Or.inr ⟨ih.2 h, hab⟩

/-- `firstDedup` has no duplicates. -/
theorem nodup_firstDedup (l : List String) : (firstDedup l).Nodup := by
  induction l with
  | nil => simp [firstDedup]
  | cons b t ih =>
    simp only [firstDedup, List.nodup_cons]
    refine ⟨fun h => ?_, List.Nodup.filter _ ih⟩
    have := (List.mem_filter.1 h).2
    simp at this

/-- The length of `firstDedup` is the number of distinct elements. -/
theorem length_firstDedup (l : List String) :
    (firstDedup l).length = l.toFinset.card := by
  have h1 : (firstDedup l).toFinset = l.toFinset := by
    ext x
    simp [List.mem_toFinset, mem_firstDedup]
  calc (firstDedup l).length
      = (firstDedup l).toFinset.card :=
        (List.toFinset_card_of_nodup (nodup_firstDedup l)).symm
    _ = l.toFinset.card := by rw [h1]

/-- `ask` without an image, when retrieval raises: the exception propagates. -/
theorem ask_retrieve_error (o : Oracles) (db : VectorDatabase) (q : String)
    (k : ℕ) (e : SearchErr)
    (hR : retrieve_relevant_docs o db q k = Except.error e) :
    ask o db q k none = Except.error e := by
  unfold ask
  rw [hR]
  rfl

/-- `ask` without an image, when retrieval yields no candidates: the fallback
record, with `from_docs = false` and no sources. -/
theorem ask_retrieve_empty (o : Oracles) (db : VectorDatabase) (q : String)
    (k : ℕ) (hR : retrieve_relevant_docs o db q k = Except.ok []) :
    ask o db q k none =
      Except.ok
        { query := q
          answer := _generate_fallback_answer o q
          sources := []
          retrieved_docs_count := none
          from_docs := false
          image_analysis := none } := by
  unfold ask
  rw [hR]
  rfl

/-- `ask` without an image, when retrieval yields candidates: one grounded
synthesis, the `from_docs` re-test on the final answer, and URL deduplication. -/
theorem ask_retrieve_nonempty (o : Oracles) (db : VectorDatabase) (q : String)
    (k : ℕ) (docs : List SearchResult)
    (hR : retrieve_relevant_docs o db q k = Except.ok docs) (hd : docs ≠ []) :
    ask o db q k none =
      Except.ok
        { query := q
          answer := generate_answer o q docs
          sources := dedupSources docs []
          retrieved_docs_count := some docs.length
          from_docs := ! _is_unknown_response (generate_answer o q docs)
          image_analysis := none } := by
  unfold ask
  rw [hR]
  simp only [if_neg hd]
  rfl

/-- Claim C1, evaluated at the failing input the code violates it on: on a
one-chunk corpus the built index answers `top_k = 2` with TWO results — the
single document twice, the second being the faiss padding slot (label `-1`,
similarity `-FLT_MAX`) which passes the guard `idx < len(self.documents)` and
is resolved by Python negative indexing to the last document — instead of
`min(2, 1) = 1` results each appearing at most once; and `top_k = 0` raises
(faiss's `k > 0` assertion) instead of returning an empty sequence. -/
theorem C1_search_overfetch_duplicates :
    dbC1loaded.build_index = Except.ok dbC1 ∧
    dbC1.search [1] 2 =
      Except.ok
        [{ doc := docC1, similarity := 1, rank := 1 },
         { doc := docC1, similarity := negFltMax, rank := 2 }] ∧
    min 2 dbC1.documents.length = 1 ∧
    dbC1.search [1] 0 = Except.error SearchErr.kNotPositive := by
  refine ⟨?_, ?_, ?_, ?_⟩ <;> with_unfolding_all rfl

/-- Claim C2, evaluated at the failing input the code violates it on: with a
non-empty retrieval and a grounded synthesized answer containing the marker
"i don't know", the grounded answer is indeed replaced by the fallback answer,
but `from_docs` is then recomputed from the *replacement* text — which contains
no marker — so the returned flag is `true` where the claim (and the source's
own comment "answer will contain the warning") says `false`. -/
theorem C2_fallback_from_docs_flag :
    retrieve_relevant_docs oUnknown dbC1 "Q" 1 =
      Except.ok [{ doc := docC1, similarity := 1, rank := 1 }] ∧
    oUnknown.gen (grounded_prompt "Q" [{ doc := docC1, similarity := 1, rank := 1 }]) =
      Except.ok "I don't know" ∧
    _is_unknown_response "I don't know" = true ∧
    oUnknown.gen (fallback_prompt "Q") = Except.ok "⚠️ General knowledge: B" ∧
    ask oUnknown dbC1 "Q" 1 none = Except.ok ansC2 ∧
    ansC2.from_docs = true := by
  refine ⟨?_, ?_, ?_, ?_, ?_, ?_⟩ <;> with_unfolding_all rfl

/-- Claim C3: on the text path, the source list of every record `ask` returns
is deduplicated by URL — no two entries share a `url`. -/
theorem C3_sources_urls_distinct (o : Oracles) (db : VectorDatabase) (q : String)
    (k : ℕ) (r : RagAnswer) (h : ask o db q k none = Except.ok r) :
    (r.sources.map SourceEntry.url).Nodup := by
  cases hR : retrieve_relevant_docs o db q k with
  | error e =>
    rw [ask_retrieve_error o db q k e hR] at h
    simp at h
  | ok docs =>
    by_cases hd : docs = []
    · subst hd
      rw [ask_retrieve_empty o db q k hR] at h
      injection h with h'
      rw [← h']
      simp
    · rw [ask_retrieve_nonempty o db q k docs hR hd] at h
      injection h with h'
      rw [← h']
      exact (dedupSources_urls_nodup docs []).1

/-- Witness for C3 at a concrete run: the deduplicated source list of the
`oUnknown`/`dbC1` scenario has pairwise distinct URLs. -/
theorem C3_witness : (ansC2.sources.map SourceEntry.url).Nodup :=
  C3_sources_urls_distinct oUnknown dbC1 "Q" 1 ansC2 (by with_unfolding_all rfl)

/-- Claim C4: when retrieval produces no candidates — in particular whenever
the query embedding capability fails — `ask` takes the fallback path and
returns `from_docs = false` with an empty source list. -/
theorem C4_empty_retrieval_fallback (o : Oracles) (db : VectorDatabase)
    (q : String) (k : ℕ) :
    (o.embed q "RETRIEVAL_QUERY" = none →
      retrieve_relevant_docs o db q k = Except.ok []) ∧
    (retrieve_relevant_docs o db q k = Except.ok [] →
      ask o db q k none =
        Except.ok
          { query := q
            answer := _generate_fallback_answer o q
            sources := []
            retrieved_docs_count := none
            from_docs := false
            image_analysis := none }) := by
  constructor
  · intro h
    unfold retrieve_relevant_docs
    rw [h]
  · intro h
    exact ask_retrieve_empty o db q k h

/-- Witness for C4: a failing embedding oracle yields the empty retrieval and
the fallback record. -/
theorem C4_witness :
    retrieve_relevant_docs oFail dbC1 "Q4" 3 = Except.ok [] ∧
    ask oFail dbC1 "Q4" 3 none =
      Except.ok
        { query := "Q4"
          answer := _generate_fallback_answer oFail "Q4"
          sources := []
          retrieved_docs_count := none
          from_docs := false
          image_analysis := none } :=
  ⟨(C4_empty_retrieval_fallback oFail dbC1 "Q4" 3).1 rfl,
   (C4_empty_retrieval_fallback oFail dbC1 "Q4" 3).2
     ((C4_empty_retrieval_fallback oFail dbC1 "Q4" 3).1 rfl)⟩

/-- Claim C5: a query vector whose length differs from the index dimension
always makes `search` fail with the dimension-mismatch error (the faiss
wrapper's `assert d == self.d`); no truncation or padding path exists. -/
theorem C5_dimension_mismatch_raises (db : VectorDatabase)
    (xb : List (List ℚ × ℚ)) (q : List ℚ) (k : ℕ)
    (hidx : db.index = some xb) (hlen : q.length ≠ db.dimension) :
    db.search q k = Except.error SearchErr.dimensionMismatch := by
  unfold VectorDatabase.search
  simp only [hidx]
  rw [if_pos hlen]

/-- Witness for C5: a 2-entry query against the 1-dimensional index. -/
theorem C5_witness :
    dbC1.search [1, 2] 7 = Except.error SearchErr.dimensionMismatch :=
  C5_dimension_mismatch_raises dbC1 [([1], 1)] [1, 2] 7 rfl (by decide)

/-- Claim C6: normalization is total on degenerate inputs — `normalize_L2`
leaves an all-zero row unchanged (its division is guarded by a nonzero squared
norm, so the zero row is recorded as itself, the degenerate match), and a
search with an all-zero query vector returns similarity `0` for every result
drawn from a stored vector; no division by zero occurs anywhere in the exact
pipeline. -/
theorem C6_zero_vector_totality :
    (∀ n : ℕ, normalizeL2 (List.replicate n 0) = (List.replicate n 0, 1)) ∧
    (∀ (db : VectorDatabase) (xb : List (List ℚ × ℚ)) (k : ℕ)
      (rs : List SearchResult),
      db.index = some xb → k ≤ xb.length →
      db.search (List.replicate db.dimension 0) k = Except.ok rs →
      ∀ r ∈ rs, r.similarity = 0) := by
  have hnorm : ∀ n : ℕ, normalizeL2 (List.replicate n 0) = (List.replicate n 0, 1) := by
    intro n
    have h0 : sqNorm (List.replicate n (0 : ℚ)) = 0 := by simp [sqNorm]
    unfold normalizeL2
    rw [if_pos h0]
  refine ⟨hnorm, ?_⟩
  intro db xb k rs hidx hk hs r hr
  unfold VectorDatabase.search at hs
  simp only [hidx] at hs
  have hlen : ¬((List.replicate db.dimension (0 : ℚ)).length ≠ db.dimension) := by simp
  rw [if_neg hlen] at hs
  by_cases hk0 : k = 0
  · rw [if_pos hk0] at hs
    simp at hs
  · rw [if_neg hk0] at hs
    injection hs with hs'
    rw [← hs'] at hr
    obtain ⟨p, hpmem, hpf⟩ := List.mem_filterMap.1 hr
    split at hpf
    · obtain ⟨doc, hdoc, hrec⟩ := Option.map_eq_some'.1 hpf
      subst hrec
      show p.2.1 = 0
      have hp2 : p.2 ∈ faissTopK xb (normalizeL2 (List.replicate db.dimension 0)) k :=
        snd_mem_of_mem_enum hpmem
      unfold faissTopK at hp2
      rw [hnorm, Nat.sub_eq_zero_of_le hk, List.replicate_zero, List.append_nil] at hp2
      have hp3 := mem_sortHits.1 (List.take_subset _ _ hp2)
      obtain ⟨pr, hpr, hpe⟩ := List.mem_map.1 hp3
      rw [← hpe]
      show scoreOf (pairDot (List.replicate db.dimension 0, 1) pr.2) = 0
      rw [pairDot_eq]
      show scoreOf (dot (List.replicate db.dimension 0) pr.2.1, 1 * pr.2.2) = 0
      rw [dot_replicate_zero]
      exact scoreOf_zero _
    · simp at hpf

/-- Witness for C6: the all-zero query over the two-vector index yields
similarity 0 on both results. -/
theorem C6_witness :
    dbC6.search (List.replicate dbC6.dimension 0) 2 =
      Except.ok [{ doc := docC6a, similarity := 0, rank := 1 },
                 { doc := docC6b, similarity := 0, rank := 2 }] ∧
    SearchResult.similarity { doc := docC6b, similarity := 0, rank := 2 } = 0 := by
  refine ⟨by with_unfolding_all rfl, ?_⟩
  exact C6_zero_vector_totality.2 dbC6 [([1, 0], 1), ([0, 1], 1)] 2
    [{ doc := docC6a, similarity := 0, rank := 1 },
     { doc := docC6b, similarity := 0, rank := 2 }]
    rfl (by decide) (by with_unfolding_all rfl) _ (by simp)

/-- Counterexample to claim C7 as stated: the filename `intro.html.txt` has no
`.html` suffix, so the spec's transformation leaves it unchanged, but the
source's `replace('.html', '')` removes the inner occurrence and the emitted
title is `intro.txt`. -/
theorem C7_title_counterexample :
    ask oPlain dbC7 "q7" 1 none = Except.ok ansC7 ∧
    ansC7.sources.map SourceEntry.title = [pyStripHtml docC7.filename] ∧
    pyStripHtml "intro.html.txt" = "intro.txt" ∧
    specTitle "intro.html.txt" = "intro.html.txt" ∧
    pyStripHtml "intro.html.txt" ≠ specTitle "intro.html.txt" := by
  refine ⟨?_, ?_, ?_, ?_, ?_⟩
  · with_unfolding_all rfl
  · with_unfolding_all rfl
  · with_unfolding_all rfl
  · with_unfolding_all rfl
  · with_unfolding_all decide

/-- Claim C7 as amended: every emitted source entry comes from a retrieved
chunk and carries title = filename with every occurrence of ".html" removed
(Python `str.replace` semantics, not only a trailing suffix), path =
`path_slug`, the chunk's url and similarity, and preview = the first 200
characters of content plus "..." exactly when the content is longer than 200
characters. -/
theorem C7_source_entry_fields (o : Oracles) (db : VectorDatabase) (q : String)
    (k : ℕ) (docs : List SearchResult) (r : RagAnswer)
    (hret : retrieve_relevant_docs o db q k = Except.ok docs)
    (hask : ask o db q k none = Except.ok r) :
    ∀ s ∈ r.sources, ∃ d ∈ docs,
      s.title = pyStripHtml d.doc.filename ∧
      s.path = d.doc.path_slug ∧
      s.url = d.doc.url ∧
      s.similarity = d.similarity ∧
      s.preview =
        (if 200 < d.doc.content.length then d.doc.content.take 200 ++ "..."
         else d.doc.content) := by
  by_cases hd : docs = []
  · subst hd
    rw [ask_retrieve_empty o db q k hret] at hask
    injection hask with h'
    rw [← h']
    intro s hs
    simp at hs
  · rw [ask_retrieve_nonempty o db q k docs hret hd] at hask
    injection hask with h'
    rw [← h']
    intro s hs
    obtain ⟨d, hdd, he⟩ := mem_dedupSources _ _ _ hs
    subst he
    exact ⟨d, hdd, rfl, rfl, rfl, rfl, rfl⟩

/-- Witness for the amended C7 at a concrete run. -/
theorem C7_witness :
    ∃ d ∈ ([{ doc := docC7, similarity := 1, rank := 1 }] : List SearchResult),
      SourceEntry.title (mkSourceEntry { doc := docC7, similarity := 1, rank := 1 }) =
        pyStripHtml d.doc.filename ∧
      SourceEntry.path (mkSourceEntry { doc := docC7, similarity := 1, rank := 1 }) =
        d.doc.path_slug ∧
      SourceEntry.url (mkSourceEntry { doc := docC7, similarity := 1, rank := 1 }) =
        d.doc.url ∧
      SourceEntry.similarity (mkSourceEntry { doc := docC7, similarity := 1, rank := 1 }) =
        d.similarity ∧
      SourceEntry.preview (mkSourceEntry { doc := docC7, similarity := 1, rank := 1 }) =
        (if 200 < d.doc.content.length then d.doc.content.take 200 ++ "..."
         else d.doc.content) :=
  C7_source_entry_fields oPlain dbC7 "q7" 1
    [{ doc := docC7, similarity := 1, rank := 1 }] ansC7
    (by with_unfolding_all rfl) (by with_unfolding_all rfl)
    (mkSourceEntry { doc := docC7, similarity := 1, rank := 1 })
    (List.mem_singleton.2 (by with_unfolding_all rfl))

/-- Claim C8: when the fallback synthesis call itself raises, the caller still
gets the fixed templated apology interpolating the original query, and `ask`
on the fallback path returns it as a successful record — the failure never
propagates. -/
theorem C8_fallback_synthesis_failure (o : Oracles) (q e : String)
    (hgen : o.gen (fallback_prompt q) = Except.error e) :
    _generate_fallback_answer o q =
      "⚠️ Based on general knowledge: I can provide an educated guess about '"
        ++ q
        ++ "', but I'd recommend checking the latest Odoo documentation or consulting with an Odoo expert for the most accurate information." ∧
    ∀ (db : VectorDatabase) (k : ℕ),
      retrieve_relevant_docs o db q k = Except.ok [] →
      ask o db q k none =
        Except.ok
          { query := q
            answer :=
              "⚠️ Based on general knowledge: I can provide an educated guess about '"
                ++ q
                ++ "', but I'd recommend checking the latest Odoo documentation or consulting with an Odoo expert for the most accurate information."
            sources := []
            retrieved_docs_count := none
            from_docs := false
            image_analysis := none } := by
  have hfb : _generate_fallback_answer o q =
      "⚠️ Based on general knowledge: I can provide an educated guess about '"
        ++ q
        ++ "', but I'd recommend checking the latest Odoo documentation or consulting with an Odoo expert for the most accurate information." := by
    unfold _generate_fallback_answer
    rw [hgen]
  refine ⟨hfb, ?_⟩
  intro db k hret
  rw [ask_retrieve_empty o db q k hret, hfb]

/-- Witness for C8: the all-failing oracle still yields the apology record. -/
theorem C8_witness :
    _generate_fallback_answer oFail "Q8" =
      "⚠️ Based on general knowledge: I can provide an educated guess about '"
        ++ "Q8"
        ++ "', but I'd recommend checking the latest Odoo documentation or consulting with an Odoo expert for the most accurate information." ∧
    ask oFail dbC1 "Q8" 3 none =
      Except.ok
        { query := "Q8"
          answer :=
            "⚠️ Based on general knowledge: I can provide an educated guess about '"
              ++ "Q8"
              ++ "', but I'd recommend checking the latest Odoo documentation or consulting with an Odoo expert for the most accurate information."
          sources := []
          retrieved_docs_count := none
          from_docs := false
          image_analysis := none } :=
  ⟨(C8_fallback_synthesis_failure oFail "Q8" "boom" rfl).1,
   (C8_fallback_synthesis_failure oFail "Q8" "boom" rfl).2 dbC1 3 rfl⟩

/-- Claim C9: the vision path routes truthy image bytes to `_ask_with_image`,
which retrieves with `top_k = 3` only to attach deduplicated sources, returns
the vision synthesis answer verbatim (no "I don't know" re-routing), sets
`from_docs` exactly when a source survived deduplication, and on an internal
failure (image decoding or synthesis) returns the error-reporting record with
empty sources and `image_analysis = true`. -/
theorem C9_vision_path (o : Oracles) (db : VectorDatabase) (q : String)
    (img : List ℕ) :
    (∀ k : ℕ, img ≠ [] →
      ask o db q k (some img) = Except.ok (_ask_with_image o db q img)) ∧
    (∀ e : String, o.decodeImage img = Except.error e →
      _ask_with_image o db q img =
        { query := q
          answer := "❌ Error analyzing image: " ++ e
          sources := []
          retrieved_docs_count := none
          from_docs := false
          image_analysis := some true }) ∧
    (∀ (docs : List SearchResult) (e : String),
      o.decodeImage img = Except.ok () →
      retrieve_relevant_docs o db q 3 = Except.ok docs →
      o.genVision (vision_prompt q) = Except.error e →
      _ask_with_image o db q img =
        { query := q
          answer := "❌ Error analyzing image: " ++ e
          sources := []
          retrieved_docs_count := none
          from_docs := false
          image_analysis := some true }) ∧
    (∀ (docs : List SearchResult) (ans : String),
      o.decodeImage img = Except.ok () →
      retrieve_relevant_docs o db q 3 = Except.ok docs →
      o.genVision (vision_prompt q) = Except.ok ans →
      _ask_with_image o db q img =
        { query := q
          answer := ans
          sources := (if docs = [] then [] else dedupSources docs [])
          retrieved_docs_count := none
          from_docs :=
            decide (0 < (if docs = [] then [] else dedupSources docs []).length)
          image_analysis := some true } ∧
      ((_ask_with_image o db q img).from_docs = true ↔
        (_ask_with_image o db q img).sources ≠ [])) := by
  refine ⟨?_, ?_, ?_, ?_⟩
  · intro k himg
    have hc : pyTruthyBytes (some img) = true := by
      simpa [pyTruthyBytes] using himg
    unfold ask
    rw [if_pos hc]
    rfl
  · intro e he
    unfold _ask_with_image
    rw [he]
  · intro docs e hdec hret hv
    unfold _ask_with_image
    rw [hdec, hret, hv]
  · intro docs ans hdec hret hv
    have hmain : _ask_with_image o db q img =
        { query := q
          answer := ans
          sources := (if docs = [] then [] else dedupSources docs [])
          retrieved_docs_count := none
          from_docs :=
            decide (0 < (if docs = [] then [] else dedupSources docs []).length)
          image_analysis := some true } := by
      unfold _ask_with_image
      rw [hdec, hret, hv]
    refine ⟨hmain, ?_⟩
    rw [hmain]
    simp [List.length_pos]

/-- Witness for C9: a successful run (whose vision answer even contains a
marker phrase, returned verbatim), a failing decode, and the routing from
`ask`. -/
theorem C9_witness :
    _ask_with_image oPlain dbC1 "Q9" [7] =
      { query := "Q9"
        answer := "I don't know"
        sources :=
          (if ([{ doc := docC1, similarity := 1, rank := 1 },
                { doc := docC1, similarity := negFltMax, rank := 2 },
                { doc := docC1, similarity := negFltMax, rank := 3 }] :
                List SearchResult) = [] then []
           else dedupSources
             [{ doc := docC1, similarity := 1, rank := 1 },
              { doc := docC1, similarity := negFltMax, rank := 2 },
              { doc := docC1, similarity := negFltMax, rank := 3 }] [])
        retrieved_docs_count := none
        from_docs :=
          decide (0 < (if ([{ doc := docC1, similarity := 1, rank := 1 },
                            { doc := docC1, similarity := negFltMax, rank := 2 },
                            { doc := docC1, similarity := negFltMax, rank := 3 }] :
                            List SearchResult) = [] then []
                       else dedupSources
                         [{ doc := docC1, similarity := 1, rank := 1 },
                          { doc := docC1, similarity := negFltMax, rank := 2 },
                          { doc := docC1, similarity := negFltMax, rank := 3 }] []).length)
        image_analysis := some true } ∧
    _ask_with_image oFail dbC1 "Q9" [7] =
      { query := "Q9"
        answer := "❌ Error analyzing image: cannot identify image file"
        sources := []
        retrieved_docs_count := none
        from_docs := false
        image_analysis := some true } ∧
    ask oPlain dbC1 "Q9" 5 (some [7]) =
      Except.ok (_ask_with_image oPlain dbC1 "Q9" [7]) := by
  refine ⟨?_, ?_, ?_⟩
  · exact ((C9_vision_path oPlain dbC1 "Q9" [7]).2.2.2
      [{ doc := docC1, similarity := 1, rank := 1 },
       { doc := docC1, similarity := negFltMax, rank := 2 },
       { doc := docC1, similarity := negFltMax, rank := 3 }]
      "I don't know" rfl (by with_unfolding_all rfl) rfl).1
  · exact (C9_vision_path oFail dbC1 "Q9" [7]).2.1 "cannot identify image file" rfl
  · exact (C9_vision_path oPlain dbC1 "Q9" [7]).1 5 (by decide)

/-- Claim C10: `get_stats` on an unloaded database returns the error
dictionary rather than raising; with documents loaded it is a pure read
returning `total_chunks` = number of chunks and `unique_documents` = number of
distinct `path_slug` values. -/
theorem C10_get_stats_total (db : VectorDatabase) :
    (db.documents = [] → db.get_stats = StatsResult.error "No documents loaded") ∧
    (db.documents ≠ [] →
      ∃ s, db.get_stats = StatsResult.ok s ∧
        s.total_chunks = db.documents.length ∧
        s.unique_documents = (db.documents.map Doc.path_slug).toFinset.card) := by
  constructor
  · intro h
    unfold VectorDatabase.get_stats
    rw [if_pos h]
  · intro h
    unfold VectorDatabase.get_stats
    rw [if_neg h]
    exact ⟨_, rfl, rfl, length_firstDedup _⟩

/-- Witness for C10: the empty database errors, the three-chunk fixture counts
3 chunks over 2 distinct documents. -/
theorem C10_witness :
    dbEmpty.get_stats = StatsResult.error "No documents loaded" ∧
    (∃ s, dbC10.get_stats = StatsResult.ok s ∧
      s.total_chunks = dbC10.documents.length ∧
      s.unique_documents = (dbC10.documents.map Doc.path_slug).toFinset.card) :=
  ⟨(C10_get_stats_total dbEmpty).1 rfl,
   (C10_get_stats_total dbC10).2 (by decide)⟩

end Odoo18Bot
